import Mathlib

/-!
# QKart storefront: the `Products` component

A shallow embedding of `src/components/Products.js`: the cart helpers
(`quantityInCart`, `addToCart`, `fetchCart`, `isItemInCart`), the catalog
requests (`performAPICall`, `performSearch`), the search debounce
(`debounceSearch`) and the conditional of the rendered view, with the component
state, the snackbar, the services, the credential store and the host timers
made explicit.
-/

set_option linter.unusedVariables false

namespace Qkart

/-! ## Data model -/

/-- One entry of the cart as the cart service returns it: `{productId, qty}`. -/
structure CartEntry where
  productId : String
  qty : Int
deriving DecidableEq, Repr

/-- A product of the catalog, as returned by `GET /products`. -/
structure Product where
  name : String
  category : String
  cost : Int
  rating : Nat
  image : String
  _id : String
deriving DecidableEq, Repr

/-- The `variant` option handed to `enqueueSnackbar`. -/
inductive Variant where
  | warning
  | error
deriving DecidableEq, Repr

/-- One call of `enqueueSnackbar(message, {variant})`. -/
structure Notice where
  message : String
  variant : Variant
deriving DecidableEq, Repr

/-- One `axios.post(config.endpoint + "/cart", data, {headers})` call: the body
`data = {productId, qty}` and the value of the `Authorization` header. -/
structure CartPost where
  productId : String
  qty : Int
  authorization : String
deriving DecidableEq, Repr

/-- A rejected axios promise: either the server answered with an error status
(`err.response` is set) or there is no response at all. -/
inductive HttpFailure where
  | response (status : Nat) (message : String)
  | noResponse
deriving DecidableEq, Repr

/-- The settled promise of a cart request: `result.data` or the rejection. -/
abbrev CartReply := Except HttpFailure (List CartEntry)

/-- The five `useState` cells of the `Products` component. -/
structure ProductsState where
  productDetails : List Product
  isLoaded : Bool
  isProductAvailable : Bool
  debounceTimeout : Nat
  cartDetails : List CartEntry
deriving DecidableEq, Repr

/-- The values the `useState` calls start from (lines 35-39). -/
def initialState : ProductsState :=
  { productDetails := []
    isLoaded := false
    isProductAvailable := true
    debounceTimeout := 500
    cartDetails := [] }

/-- What one call of a handler leaves behind: the component state after it, the
snackbar calls, the `POST /cart` requests sent and the `console.log` lines, in
order. -/
structure Run where
  state : ProductsState
  notices : List Notice
  posts : List CartPost
  console : List String
deriving DecidableEq, Repr

/-- The value passed for the `options` parameter of `addToCart`. The parameter
has the default `{ preventDuplicate: false }`, used when the argument is
`undefined`; the body only tests `if(options)`. -/
inductive OptionsArg where
  | undefined
  | bool (b : Bool)
  | object (preventDuplicate : Bool)
deriving DecidableEq, Repr

/-- Truthiness of `options` after the default has been applied: `undefined`
becomes the default object, and every object is truthy. -/
def OptionsArg.truthy : OptionsArg → Bool
  | .undefined => true
  | .bool b => b
  | .object _ => true

/-- The token as `localStorage.getItem('token')` yields it: `null` or a string.
`!token` holds for `null` and for the empty string. -/
def tokenFalsy : Option String → Bool
  | none => true
  | some t => t == ""

/-- The template literal `Bearer ${token}`. -/
def bearer (token : Option String) : String :=
  "Bearer " ++ token.getD "null"

def loginWarning : Notice :=
  ⟨"Login to add an item to the Cart", .warning⟩

def alreadyInCartWarning : Notice :=
  ⟨"Item already in cart. Use the cart sidebar to update quantity or remove item.", .warning⟩

/-! ## `quantityInCart` (lines 312-321) -/

/-- The callback of the `forEach`: a matching entry overwrites `quantity`. -/
def quantityStep (id : String) (quantity : Int) (item : CartEntry) : Int :=
  if item.productId == id then item.qty else quantity

/-- `quantityInCart(id)`: `quantity` starts at 0 and `cartDetails.forEach`
visits every entry in list order (there is no `break`). -/
def quantityInCart (cartDetails : List CartEntry) (id : String) : Int :=
  cartDetails.foldl (quantityStep id) 0

/-! ## Number arithmetic

Quantities are JavaScript numbers, IEEE-754 doubles. An `Int` stands for the
double that holds that integer; the sum or difference of two of them is the
exact result rounded to the nearest double, ties to the even significand. -/

/-- The distance between neighbouring doubles at magnitude `m`: 1 below 2^53,
doubling with every further bit (`fuel` bounds the number of further bits). -/
def spacing : Nat → Nat → Nat
  | 0, _ => 1
  | fuel + 1, m => if m < 2 ^ 53 then 1 else 2 * spacing fuel (m / 2)

/-- The integer `n` rounded to the nearest double, ties to even. Finite doubles
lie below 2^1024, and the sum of a finite double and 1 never rounds to
`Infinity`. -/
def toDouble (n : Int) : Int :=
  let m := n.natAbs
  let u := spacing 1024 m
  let q := m / u
  let r := m % u
  let q1 := if u < 2 * r ∨ (2 * r = u ∧ q % 2 = 1) then q + 1 else q
  n.sign * ((q1 * u : Nat) : Int)

/-! ## `addToCart` (lines 255-309) -/

/-- `addToCart(token, items, products, productId, qty, options,
isTriggeredFromProduct)` run on component state `s` against a cart service
`post`. The `await` is resolved by asking `post` for the settled reply. The
body `qty: +qty + 1` (`+qty - 1`) is an addition of numbers: the exact sum is
rounded to a double. -/
def addToCart (post : CartPost → CartReply) (s : ProductsState)
    (token : Option String) (items : List CartEntry) (products : List Product)
    (productId : String) (qty : Int) (options : OptionsArg)
    (isTriggeredFromProduct : Bool) : Run :=
  if tokenFalsy token then
    { state := s, notices := [loginWarning], posts := [], console := [] }
  else
    let data : String × Int :=
      if options.truthy then (productId, toDouble (qty + 1))
      else (productId, toDouble (qty - 1))
    if decide (qty > 0) && isTriggeredFromProduct then
      { state := s, notices := [alreadyInCartWarning], posts := [], console := [] }
    else
      let request : CartPost := ⟨data.1, data.2, bearer token⟩
      match post request with
      | .ok result =>
        { state := { s with cartDetails := result }, notices := [], posts := [request],
          console := [] }
      | .error _ =>
        { state := s, notices := [], posts := [request], console := ["failed"] }

/-! ## Search debounce (lines 134-143, 345-347)

The host's timers are made explicit: a clock in milliseconds, the table of
timers `debounceSearch` has scheduled and that have neither fired nor been
cancelled, and the logs of `clearTimeout` and `performSearch` calls. -/

/-- A timer created by `setTimeout(() => performSearch(text), 500)`. -/
structure Timer where
  handle : Nat
  due : Nat
  text : String
deriving DecidableEq, Repr

/-- The component together with the host's timer table. `nextHandle` is a
lower bound of the handles the host has not handed out yet; `dispatched` lists
the arguments of the `performSearch` calls and `cleared` the arguments of the
`clearTimeout` calls, both in order. -/
structure SearchSys where
  state : ProductsState
  now : Nat
  nextHandle : Nat
  pending : List Timer
  dispatched : List String
  cleared : List Nat
deriving DecidableEq, Repr

/-- The component right after mounting: no timer scheduled, no search sent.
Timer handles of the host are positive integers. -/
def initialSys : SearchSys :=
  { state := initialState
    now := 0
    nextHandle := 1
    pending := []
    dispatched := []
    cleared := [] }

/-- `clearTimeout(h)`: the timer with handle `h`, if any, will not fire. -/
def clearTimeout (h : Nat) (w : SearchSys) : SearchSys :=
  { w with
    pending := w.pending.filter (fun t => t.handle != h)
    cleared := w.cleared ++ [h] }

/-- `setTimeout(() => performSearch(text), delay)`: the host picks a handle it
has not used (`skip` handles further than the lower bound, other code on the
page takes handles as well) and returns it. -/
def setTimeout (skip : Nat) (text : String) (delay : Nat) (w : SearchSys) :
    Nat × SearchSys :=
  let h := w.nextHandle + skip
  (h, { w with
        nextHandle := h + 1
        pending := w.pending ++ [⟨h, w.now + delay, text⟩] })

/-- `debounceSearch(event, debounceTimeout)` with `text = event.target.value`.
The test `if(debounceTimeout)` is truthiness of a number: it fails only for 0. -/
def debounceSearch (skip : Nat) (text : String) (debounceTimeout : Nat)
    (w : SearchSys) : SearchSys :=
  let w1 := if debounceTimeout != 0 then clearTimeout debounceTimeout w else w
  let timeout := setTimeout skip text 500 w1
  { timeout.2 with state := { timeout.2.state with debounceTimeout := timeout.1 } }

/-- The `onChange` handler of the search fields: it passes the handle held in
the `debounceTimeout` state cell. -/
def onChange (skip : Nat) (text : String) (w : SearchSys) : SearchSys :=
  debounceSearch skip text w.state.debounceTimeout w

/-- Expiry of timer `t`: its callback runs `performSearch(t.text)` and the
timer leaves the table. -/
def fire (t : Timer) (w : SearchSys) : SearchSys :=
  { w with
    pending := w.pending.filter (fun p => p.handle != t.handle)
    dispatched := w.dispatched ++ [t.text] }

/-- Let `d` milliseconds pass with every timer firing as soon as it is due.
All timers have the same delay, so the table is ordered by due time and the
due timers fire in table order. -/
def advance (d : Nat) (w : SearchSys) : SearchSys :=
  { w with
    now := w.now + d
    pending := w.pending.filter (fun t => !decide (t.due ≤ w.now + d))
    dispatched :=
      w.dispatched ++ (w.pending.filter (fun t => decide (t.due ≤ w.now + d))).map Timer.text }

/-- A keystroke in a search field: it arrives `gap` ms after the previous
event and leaves `text` in the field; `skip` is the host's choice of handle for
the timer the keystroke schedules (see `setTimeout`). -/
structure Keystroke where
  gap : Nat
  skip : Nat
  text : String
deriving DecidableEq, Repr

/-- Handle one keystroke: time passes, then `onChange` runs. -/
def keystroke (w : SearchSys) (k : Keystroke) : SearchSys :=
  onChange k.skip k.text (advance k.gap w)

/-- Handle a sequence of keystrokes in order. -/
def runKeys (w : SearchSys) (ks : List Keystroke) : SearchSys :=
  ks.foldl keystroke w

/-- One step of the debounce system: a keystroke is handled by `onChange`,
time passes, or a pending timer that is due expires. -/
inductive Step : SearchSys → SearchSys → Prop where
  | key (w : SearchSys) (skip : Nat) (text : String) : Step w (onChange skip text w)
  | tick (w : SearchSys) (d : Nat) : Step w { w with now := w.now + d }
  | expire (w : SearchSys) (t : Timer) : t ∈ w.pending → t.due ≤ w.now → Step w (fire t w)

/-- States reachable from the freshly mounted component. -/
inductive Reachable : SearchSys → Prop where
  | init : Reachable initialSys
  | step (w w1 : SearchSys) : Reachable w → Step w w1 → Reachable w1

/-- The system holds exactly one pending timer: it was scheduled at the current
instant for `text`, its handle is the one in the `debounceTimeout` cell, and no
search has been dispatched so far. -/
def Armed (w : SearchSys) (text : String) : Prop :=
  1 ≤ w.nextHandle ∧ w.dispatched = [] ∧
    ∃ h, h ≠ 0 ∧ w.state.debounceTimeout = h ∧ w.pending = [⟨h, w.now + 500, text⟩]

/-- The timer table is empty or holds the single timer whose handle is in the
`debounceTimeout` cell. -/
def Tracked (w : SearchSys) : Prop :=
  1 ≤ w.nextHandle ∧
    (w.pending = [] ∨
      ∃ t, w.pending = [t] ∧ t.handle = w.state.debounceTimeout ∧ t.handle ≠ 0)

/-! ## Catalog requests and the rendered view (lines 78-120, 383-410) -/

/-- The settled promise of a catalog request: `response.data` or the rejection. -/
abbrev ProductsReply := Except HttpFailure (List Product)

/-- An exception that escapes a handler: reading `.status` of `undefined`. -/
inductive JsError where
  | typeError
deriving DecidableEq, Repr

/-- A run that changes nothing but the component state. -/
def stateOnly (s : ProductsState) : Run :=
  { state := s, notices := [], posts := [], console := [] }

/-- `performAPICall()` given the settled reply of `GET /products`. The `catch`
block reads `err.response.status` without testing `err.response`: with no
response the read throws inside the handler, and the exception leaves the
function. -/
def performAPICall (reply : ProductsReply) (s : ProductsState) : Except JsError Run :=
  match reply with
  | .ok productData =>
    .ok (stateOnly { s with productDetails := productData, isLoaded := true })
  | .error .noResponse => .error .typeError
  | .error (.response status _) =>
    if status == 404 then .ok (stateOnly { s with isLoaded := false })
    else .ok (stateOnly s)

/-- The part of `performSearch` that runs once the request has settled. -/
def performSearchSettled (reply : ProductsReply) (s : ProductsState) : Except JsError Run :=
  match reply with
  | .ok productData =>
    .ok (stateOnly { s with productDetails := productData, isProductAvailable := true })
  | .error .noResponse => .error .typeError
  | .error (.response status _) =>
    if status == 404 then .ok (stateOnly { s with isProductAvailable := false })
    else .ok (stateOnly s)

/-- `performSearch(text)` against a search service `search`, which answers
`GET /products/search?value=<text>`. -/
def performSearch (search : String → ProductsReply) (text : String) (s : ProductsState) :
    Except JsError Run :=
  performSearchSettled (search text) s

/-- What the product area of the page shows. -/
inductive View where
  | noProductsFound
  | loading
  | grid (products : List Product)
deriving DecidableEq, Repr

/-- The conditional of the `return` (lines 383-410): the "No products found"
box, else the "Loading Products" spinner, else one card per product. -/
def render (s : ProductsState) : View :=
  if !s.isProductAvailable then .noProductsFound
  else if !s.isLoaded then .loading
  else .grid s.productDetails

/-! ## `fetchCart` (lines 174-200) -/

/-- The value a handler returns. -/
inductive Returned where
  | undefined
  | null
  | array (items : List CartEntry)
  | boolean (b : Bool)
deriving DecidableEq, Repr

def fetchCartFallback : Notice :=
  ⟨"Could not fetch cart details. Check that the backend is running, reachable and returns valid JSON.",
    .error⟩

/-- `fetchCart(token)` against a cart service `get`, which answers `GET /cart`
for the given `Authorization` header. The `try` block ends after
`setCartDetails(cartItems)` without a `return`. -/
def fetchCart (get : String → CartReply) (s : ProductsState) (token : Option String) :
    Run × Returned :=
  if tokenFalsy token then (stateOnly s, .undefined)
  else
    match get (bearer token) with
    | .ok cartItems => (stateOnly { s with cartDetails := cartItems }, .undefined)
    | .error (.response status message) =>
      if status == 400 then
        ({ state := s, notices := [⟨message, .error⟩], posts := [], console := [] }, .null)
      else
        ({ state := s, notices := [fetchCartFallback], posts := [], console := [] }, .null)
    | .error .noResponse =>
      ({ state := s, notices := [fetchCartFallback], posts := [], console := [] }, .null)

/-! ## `isItemInCart` (lines 203-217) -/

/-- `isItemInCart(items, productId)`: the arrow function has an empty block as
its body, `(items, productId) => { }`, so every call yields `undefined`. -/
def isItemInCart (items : List CartEntry) (productId : String) : Returned :=
  .undefined

/-! ## The credential store and the catalog button (Header.js 63-72, lines 399-406) -/

/-- The browser's `localStorage`: keys with their values. -/
abbrev LocalStorage := List (String × String)

/-- `localStorage.getItem(key)`: the stored value, or `null`. -/
def getItem (store : LocalStorage) (key : String) : Option String :=
  store.lookup key

/-- `localStorage.clear()`. -/
def clear (store : LocalStorage) : LocalStorage := []

/-- The `onClick` of the Logout button of the Header as far as the store goes:
`localStorage.clear()`; the navigation and the reload do not write to it. -/
def logout (store : LocalStorage) : LocalStorage :=
  clear store

/-- The lines `quantityInCart(id)` writes to the console: `console.log(item.qty)`
for every entry whose `productId` equals `id`, in list order. How the console
prints a number is the host's business and is taken as `fmt`. -/
def quantityInCartConsole (fmt : Int → String) (cartDetails : List CartEntry)
    (id : String) : List String :=
  (cartDetails.filter (fun item => item.productId == id)).map (fun item => fmt item.qty)

/-- The `handleAddToCart` closure handed to the `ProductCard` of `item`:
`addToCart(localStorage.getItem('token'), cartDetails, productDetails, item._id,
quantityInCart(item._id), true, true)`. The argument `quantityInCart(item._id)`
is evaluated, and logs, before the body of `addToCart` runs. -/
def handleAddToCart (fmt : Int → String) (post : CartPost → CartReply)
    (store : LocalStorage) (s : ProductsState) (item : Product) : Run :=
  let r := addToCart post s (getItem store "token") s.cartDetails s.productDetails item._id
    (quantityInCart s.cartDetails item._id) (.bool true) true
  { r with console := quantityInCartConsole fmt s.cartDetails item._id ++ r.console }

/-! ## In-flight searches

The events of the search once the debounce has let a query through: a timer
fires and `performSearch(text)` sends its request; later the reply arrives and
the rest of `performSearch` runs. Nothing links a reply to the latest query. -/

/-- The component state and the texts of the searches whose reply is due. -/
structure SearchNet where
  state : ProductsState
  inflight : List String
deriving DecidableEq, Repr

inductive SearchEvent where
  | timerFires (text : String)
  | replyArrives (text : String)
deriving DecidableEq, Repr

/-- One event against the search service `search`; `none` when a reply is
announced for a search that is not in flight or the handler throws. -/
def searchEvent (search : String → ProductsReply) (n : SearchNet) :
    SearchEvent → Option SearchNet
  | .timerFires text => some { n with inflight := n.inflight ++ [text] }
  | .replyArrives text =>
    if text ∈ n.inflight then
      match performSearchSettled (search text) n.state with
      | .ok r => some { state := r.state, inflight := n.inflight.erase text }
      | .error _ => none
    else none

/-- Run a sequence of events in order. -/
def searchEvents (search : String → ProductsReply) (n : SearchNet) :
    List SearchEvent → Option SearchNet
  | [] => some n
  | e :: es => (searchEvent search n e).bind (fun n1 => searchEvents search n1 es)

/-! ## Cart line items (`generateCartItemsFrom` of Cart.js) -/

/-- A cart entry joined with its product. -/
structure CartLineItem where
  product : Product
  quantity : Int
deriving DecidableEq, Repr

/-- Modelled from the spec: `generateCartItemsFrom` is imported from `./Cart`,
a file that is not part of the sources at hand. Following section 4.1
(`buildLines`): for each cart entry the product with the entry's `productId` is
looked up in the catalog; if found, a line item with that product and the
entry's quantity is emitted, if not the entry is omitted. Snapshot order is
kept. -/
def generateCartItemsFrom (cartData : List CartEntry) (productsData : List Product) :
    List CartLineItem :=
  cartData.filterMap (fun entry =>
    (productsData.find? (fun p => p._id == entry.productId)).map
      (fun p => { product := p, quantity := entry.qty }))

/-! ## The spec's `quantityOf`, for comparison -/

/-- The quantity resolver as the specification words it: the quantity of the
first entry whose `productId` equals the argument, 0 if there is none. -/
def specQuantityOf (S : List CartEntry) (pid : String) : Int :=
  match S.find? (fun e => e.productId == pid) with
  | some e => e.qty
  | none => 0

/-! ## `quantityInCart` -/

theorem quantityStep_of_ne (p : String) (acc : Int) (e : CartEntry)
    (h : e.productId ≠ p) : quantityStep p acc e = acc := by
  simp [quantityStep, h]

theorem quantityStep_of_eq (p : String) (acc : Int) (e : CartEntry)
    (h : e.productId = p) : quantityStep p acc e = e.qty := by
  simp [quantityStep, h]

/-- Entries with another product id leave the running quantity alone. -/
theorem foldl_quantityStep_of_no_match (p : String) (l : List CartEntry)
    (h : ∀ x ∈ l, x.productId ≠ p) (acc : Int) :
    l.foldl (quantityStep p) acc = acc := by
  induction l generalizing acc with
  | nil => rfl
  | cons x l ih =>
    have hx : x.productId ≠ p := h x (List.mem_cons_self x l)
    have hl : ∀ y ∈ l, y.productId ≠ p := fun y hy => h y (List.mem_cons_of_mem x hy)
    rw [List.foldl_cons, quantityStep_of_ne p acc x hx]
    exact ih hl acc

/-- The scan returns the quantity of a matching entry that no later entry
matches. -/
theorem quantityInCart_of_last_match (l1 l2 : List CartEntry) (e : CartEntry) (p : String)
    (he : e.productId = p) (h2 : ∀ x ∈ l2, x.productId ≠ p) :
    quantityInCart (l1 ++ e :: l2) p = e.qty := by
  unfold quantityInCart
  rw [List.foldl_append, List.foldl_cons, quantityStep_of_eq p _ e he]
  exact foldl_quantityStep_of_no_match p l2 h2 e.qty

/-- C1: on a cart snapshot with at most one entry per product id,
`quantityInCart` returns 0 when no entry has product id `p` and the quantity of
the entry with product id `p` otherwise. -/
theorem quantityInCart_unique (S : List CartEntry) (p : String)
    (hS : (S.map CartEntry.productId).Nodup) :
    ((∀ e ∈ S, e.productId ≠ p) → quantityInCart S p = 0) ∧
    (∀ e ∈ S, e.productId = p → quantityInCart S p = e.qty) := by
  refine ⟨fun h => foldl_quantityStep_of_no_match p S h 0, ?_⟩
  intro e he hp
  obtain ⟨l1, l2, rfl⟩ := List.append_of_mem he
  apply quantityInCart_of_last_match l1 l2 e p hp
  intro x hx hxp
  rw [List.map_append, List.map_cons] at hS
  have hnd := (List.nodup_append.mp hS).2.1
  have hnot := (List.nodup_cons.mp hnd).1
  apply hnot
  rw [hp, ← hxp]
  exact List.mem_map_of_mem CartEntry.productId hx

theorem quantityInCart_unique_witness :
    quantityInCart [⟨"a", 3⟩, ⟨"b", 1⟩] "a" = 3 ∧ quantityInCart [⟨"a", 3⟩, ⟨"b", 1⟩] "c" = 0 :=
  ⟨(quantityInCart_unique [⟨"a", 3⟩, ⟨"b", 1⟩] "a" (by decide)).2 ⟨"a", 3⟩ (by decide) rfl,
   (quantityInCart_unique [⟨"a", 3⟩, ⟨"b", 1⟩] "c" (by decide)).1 (by decide)⟩

/-- C2 as stated fails: with two entries for product "a" the scan returns the
quantity of the second one, the spec's first-match resolver that of the first. -/
theorem quantityInCart_first_match_counterexample :
    quantityInCart [⟨"a", 1⟩, ⟨"a", 2⟩] "a" = 2 ∧
    specQuantityOf [⟨"a", 1⟩, ⟨"a", 2⟩] "a" = 1 ∧
    quantityInCart [⟨"a", 1⟩, ⟨"a", 2⟩] "a" ≠ specQuantityOf [⟨"a", 1⟩, ⟨"a", 2⟩] "a" := by
  decide

/-- C2, amended: for every cart snapshot, duplicates included, `quantityInCart`
returns the quantity of the last entry, in list order, whose product id is `p`,
and 0 if there is no such entry. -/
theorem quantityInCart_last_match (S : List CartEntry) (p : String) :
    ((∀ e ∈ S, e.productId ≠ p) → quantityInCart S p = 0) ∧
    (∀ (l1 l2 : List CartEntry) (e : CartEntry), S = l1 ++ e :: l2 → e.productId = p →
      (∀ x ∈ l2, x.productId ≠ p) → quantityInCart S p = e.qty) := by
  refine ⟨fun h => foldl_quantityStep_of_no_match p S h 0, ?_⟩
  intro l1 l2 e hS he h2
  rw [hS]
  exact quantityInCart_of_last_match l1 l2 e p he h2

theorem quantityInCart_last_match_witness :
    quantityInCart [⟨"a", 1⟩, ⟨"a", 2⟩, ⟨"b", 7⟩] "a" = 2 :=
  (quantityInCart_last_match [⟨"a", 1⟩, ⟨"a", 2⟩, ⟨"b", 7⟩] "a").2
    [⟨"a", 1⟩] [⟨"b", 7⟩] ⟨"a", 2⟩ rfl rfl (by decide)

/-! ## `addToCart` -/

theorem tokenFalsy_some (t : String) (ht : t ≠ "") : tokenFalsy (some t) = false := by
  simp [tokenFalsy, ht]

/-- Below 2^53 neighbouring doubles are 1 apart. -/
theorem spacing_small (fuel m : Nat) (h : m < 2 ^ 53) : spacing fuel m = 1 := by
  cases fuel with
  | zero => rfl
  | succ f =>
    unfold spacing
    rw [if_pos h]

/-- Integers of magnitude below 2^53 are doubles. -/
theorem toDouble_small (n : Int) (h : n.natAbs < 2 ^ 53) : toDouble n = n := by
  unfold toDouble
  simp only [spacing_small 1024 n.natAbs h]
  have h1 : ¬ (1 < 2 * (n.natAbs % 1) ∨
      (2 * (n.natAbs % 1) = 1 ∧ n.natAbs / 1 % 2 = 1)) := by
    rw [Nat.mod_one]
    omega
  rw [if_neg h1, Nat.div_one, Nat.mul_one]
  exact Int.sign_mul_natAbs n

/-- Integers of magnitude up to 2^53 are doubles. -/
theorem toDouble_exact (n : Int) (hlo : -(2 ^ 53) ≤ n) (hhi : n ≤ 2 ^ 53) :
    toDouble n = n := by
  by_cases h1 : n = 2 ^ 53
  · rw [h1]; decide
  · by_cases h2 : n = -(2 ^ 53)
    · rw [h2]; decide
    · apply toDouble_small
      rcases Int.natAbs_eq n with h | h <;> omega

/-- Rounding keeps the sign: a number that is not negative rounds to one. -/
theorem toDouble_nonneg (n : Int) (h : 0 ≤ n) : 0 ≤ toDouble n := by
  unfold toDouble
  exact mul_nonneg (Int.sign_nonneg.mpr h) (Int.ofNat_nonneg _)

/-- The notices and the quantities requested by `addToCart` depend only on
whether the token is falsy, on `qty`, on the truthiness of `options` and on the
catalog flag. -/
theorem addToCart_decision (post : CartPost → CartReply) (s : ProductsState)
    (token : Option String) (items : List CartEntry) (products : List Product)
    (productId : String) (qty : Int) (options : OptionsArg) (isTriggeredFromProduct : Bool) :
    (addToCart post s token items products productId qty options
        isTriggeredFromProduct).notices =
      (if tokenFalsy token then [loginWarning]
       else if decide (qty > 0) && isTriggeredFromProduct then [alreadyInCartWarning]
       else []) ∧
    (addToCart post s token items products productId qty options
        isTriggeredFromProduct).posts =
      (if tokenFalsy token then []
       else if decide (qty > 0) && isTriggeredFromProduct then []
       else [⟨productId, if options.truthy then toDouble (qty + 1) else toDouble (qty - 1),
              bearer token⟩]) := by
  unfold addToCart
  by_cases h1 : tokenFalsy token = true
  · simp [h1]
  · by_cases h2 : (decide (qty > 0) && isTriggeredFromProduct) = true
    · simp [h1, h2]
    · simp only [h1, h2, Bool.false_eq_true, if_false]
      cases post _ <;> cases hopt : options.truthy <;> simp

/-- C3: without a token (`null` or the empty string) `addToCart` shows the one
login warning, sends nothing and keeps the state, whatever the product id, the
quantity, the `options` flag and the catalog flag are. -/
theorem addToCart_without_token (post : CartPost → CartReply) (s : ProductsState)
    (token : Option String) (items : List CartEntry) (products : List Product)
    (productId : String) (qty : Int) (options : OptionsArg) (isTriggeredFromProduct : Bool)
    (h : token = none ∨ token = some "") :
    addToCart post s token items products productId qty options isTriggeredFromProduct =
      { state := s, notices := [loginWarning], posts := [], console := [] } := by
  rcases h with rfl | rfl <;> simp [addToCart, tokenFalsy]

theorem addToCart_without_token_witness :
    addToCart (fun _ => .ok [⟨"p", 9⟩]) initialState none [] [] "p" 4 (.bool false) false =
      { state := initialState, notices := [loginWarning], posts := [], console := [] } :=
  addToCart_without_token (fun _ => .ok [⟨"p", 9⟩]) initialState none [] [] "p" 4
    (.bool false) false (Or.inl rfl)

/-- C4: with a token and a current quantity above 0, a call triggered from the
catalog shows the one "already in cart" warning, sends nothing and keeps the
state, for every value of `options`. -/
theorem addToCart_catalog_duplicate (post : CartPost → CartReply) (s : ProductsState)
    (t : String) (items : List CartEntry) (products : List Product)
    (productId : String) (qty : Int) (options : OptionsArg)
    (ht : t ≠ "") (hq : 0 < qty) :
    addToCart post s (some t) items products productId qty options true =
      { state := s, notices := [alreadyInCartWarning], posts := [], console := [] } := by
  simp [addToCart, tokenFalsy_some t ht, hq]

theorem addToCart_catalog_duplicate_witness :
    addToCart (fun _ => .ok []) initialState (some "tok") [] [] "p" 2 (.bool false) true =
      { state := initialState, notices := [alreadyInCartWarning], posts := [], console := [] } :=
  addToCart_catalog_duplicate (fun _ => .ok []) initialState "tok" [] [] "p" 2 (.bool false)
    (by decide) (by decide)

/-- C5 as stated fails: at the current quantity 2^53 the sum 2^53 + 1 is not a
double and rounds back, so the increment request asks for 2^53, not for
2^53 + 1. -/
theorem addToCart_request_counterexample :
    (addToCart (fun _ => .ok []) initialState (some "tok") [] [] "p" 9007199254740992
        (.bool true) false).posts = [⟨"p", 9007199254740992, "Bearer tok"⟩] ∧
    (addToCart (fun _ => .ok []) initialState (some "tok") [] [] "p" 9007199254740992
        (.bool true) false).posts ≠ [⟨"p", 9007199254740992 + 1, "Bearer tok"⟩] := by
  decide

/-- C5, amended: with a token and a current quantity of magnitude below 2^53,
unless the call comes from the catalog with a quantity above 0, `addToCart`
shows no notice and sends exactly one request, with body `{productId, qty + 1}`
when `options` is truthy (`true`) and `{productId, qty - 1}` when it is not
(`false`). -/
theorem addToCart_request (post : CartPost → CartReply) (s : ProductsState)
    (t : String) (items : List CartEntry) (products : List Product)
    (productId : String) (qty : Int) (options : OptionsArg) (isTriggeredFromProduct : Bool)
    (ht : t ≠ "") (h : ¬ (isTriggeredFromProduct = true ∧ 0 < qty))
    (hlo : -(2 ^ 53) < qty) (hhi : qty < 2 ^ 53) :
    (addToCart post s (some t) items products productId qty options
        isTriggeredFromProduct).notices = [] ∧
    (addToCart post s (some t) items products productId qty options
        isTriggeredFromProduct).posts =
      [⟨productId, if options.truthy then qty + 1 else qty - 1, "Bearer " ++ t⟩] := by
  have hg : (decide (qty > 0) && isTriggeredFromProduct) = false := by
    cases isTriggeredFromProduct <;> simp_all
  have hup : toDouble (qty + 1) = qty + 1 := toDouble_exact _ (by omega) (by omega)
  have hdown : toDouble (qty - 1) = qty - 1 := toDouble_exact _ (by omega) (by omega)
  obtain ⟨hn, hp⟩ := addToCart_decision post s (some t) items products productId qty
    options isTriggeredFromProduct
  rw [hn, hp, tokenFalsy_some t ht, hg, hup, hdown]
  simp [bearer]

theorem addToCart_request_witness :
    (addToCart (fun _ => .ok []) initialState (some "tok") [] [] "p" 0 (.bool true)
        true).notices = [] ∧
    (addToCart (fun _ => .ok []) initialState (some "tok") [] [] "p" 0 (.bool true)
        true).posts = [⟨"p", 1, "Bearer tok"⟩] :=
  addToCart_request (fun _ => .ok []) initialState "tok" [] [] "p" 0 (.bool true) true
    (by decide) (by decide) (by decide) (by decide)

/-- Whenever `addToCart` sends a request, it is the one built from `data` and
the token, and the run is decided by the reply to it. -/
theorem addToCart_posts_eq (post : CartPost → CartReply) (s : ProductsState)
    (token : Option String) (items : List CartEntry) (products : List Product)
    (productId : String) (qty : Int) (options : OptionsArg) (isTriggeredFromProduct : Bool)
    (r : CartPost)
    (hr : (addToCart post s token items products productId qty options
        isTriggeredFromProduct).posts = [r]) :
    addToCart post s token items products productId qty options isTriggeredFromProduct =
      match post r with
      | .ok result =>
        { state := { s with cartDetails := result }, notices := [], posts := [r], console := [] }
      | .error _ => { state := s, notices := [], posts := [r], console := ["failed"] } := by
  unfold addToCart at hr ⊢
  by_cases h1 : tokenFalsy token = true
  · simp [h1] at hr
  · by_cases h2 : (decide (qty > 0) && isTriggeredFromProduct) = true
    · simp [h1, h2] at hr
    · simp only [h1, h2, Bool.false_eq_true, if_false] at hr ⊢
      have hreq : (CartPost.mk
          (if options.truthy = true then (productId, toDouble (qty + 1))
            else (productId, toDouble (qty - 1))).1
          (if options.truthy = true then (productId, toDouble (qty + 1))
            else (productId, toDouble (qty - 1))).2
          (bearer token)) = r := by
        cases hp : post (CartPost.mk
          (if options.truthy = true then (productId, toDouble (qty + 1))
            else (productId, toDouble (qty - 1))).1
          (if options.truthy = true then (productId, toDouble (qty + 1))
            else (productId, toDouble (qty - 1))).2
          (bearer token)) <;> simp [hp] at hr <;> exact hr
      rw [hreq]

/-- C6: when the request `addToCart` sent is answered successfully with `R`,
the cart state afterwards is `R` and the product list, the loading flags and
the debounce handle are those of before. -/
theorem addToCart_success_replaces_cart (post : CartPost → CartReply) (s : ProductsState)
    (token : Option String) (items : List CartEntry) (products : List Product)
    (productId : String) (qty : Int) (options : OptionsArg) (isTriggeredFromProduct : Bool)
    (r : CartPost) (R : List CartEntry)
    (hr : (addToCart post s token items products productId qty options
        isTriggeredFromProduct).posts = [r])
    (hok : post r = .ok R) :
    (addToCart post s token items products productId qty options
        isTriggeredFromProduct).state =
      { productDetails := s.productDetails
        isLoaded := s.isLoaded
        isProductAvailable := s.isProductAvailable
        debounceTimeout := s.debounceTimeout
        cartDetails := R } := by
  rw [addToCart_posts_eq post s token items products productId qty options
    isTriggeredFromProduct r hr, hok]

theorem addToCart_success_replaces_cart_witness :
    (addToCart (fun _ => .ok [⟨"q", 5⟩])
        { initialState with cartDetails := [⟨"p", 1⟩, ⟨"z", 4⟩] } (some "tok")
        [] [] "p" 1 (.bool true) false).state =
      { productDetails := []
        isLoaded := false
        isProductAvailable := true
        debounceTimeout := 500
        cartDetails := [⟨"q", 5⟩] } :=
  addToCart_success_replaces_cart (fun _ => .ok [⟨"q", 5⟩])
    { initialState with cartDetails := [⟨"p", 1⟩, ⟨"z", 4⟩] } (some "tok")
    [] [] "p" 1 (.bool true) false ⟨"p", 2, "Bearer tok"⟩ [⟨"q", 5⟩] (by decide) rfl

/-- C7: when the request `addToCart` sent fails, the component state, the cart
included, is the one of before the call. -/
theorem addToCart_failure_keeps_state (post : CartPost → CartReply) (s : ProductsState)
    (token : Option String) (items : List CartEntry) (products : List Product)
    (productId : String) (qty : Int) (options : OptionsArg) (isTriggeredFromProduct : Bool)
    (r : CartPost) (e : HttpFailure)
    (hr : (addToCart post s token items products productId qty options
        isTriggeredFromProduct).posts = [r])
    (hfail : post r = .error e) :
    (addToCart post s token items products productId qty options
        isTriggeredFromProduct).state = s := by
  rw [addToCart_posts_eq post s token items products productId qty options
    isTriggeredFromProduct r hr, hfail]

theorem addToCart_failure_keeps_state_witness :
    (addToCart (fun _ => .error (.response 404 "Product doesn't exist"))
        { initialState with cartDetails := [⟨"p", 1⟩] } (some "tok")
        [] [] "p" 1 (.bool false) false).state =
      { initialState with cartDetails := [⟨"p", 1⟩] } :=
  addToCart_failure_keeps_state (fun _ => .error (.response 404 "Product doesn't exist"))
    { initialState with cartDetails := [⟨"p", 1⟩] } (some "tok")
    [] [] "p" 1 (.bool false) false ⟨"p", 0, "Bearer tok"⟩
    (.response 404 "Product doesn't exist") (by decide) rfl

/-- C8, the code at a failing request: the catalog button adds product "p" to
an empty cart with a token, the request is sent and the service is unreachable;
the run logs "failed" to the console and makes no `enqueueSnackbar` call. -/
theorem addToCart_failure_shows_no_notice :
    addToCart (fun _ => .error .noResponse) initialState (some "tok") [] [] "p" 0
        (.bool true) true =
      { state := initialState
        notices := []
        posts := [⟨"p", 1, "Bearer tok"⟩]
        console := ["failed"] } := by
  decide

/-! ## Search debounce -/

/-- What `debounceSearch` leaves behind, field by field: the new handle is in
the state cell, the clock and the search log are untouched, and the table holds
what survived the `clearTimeout` plus the new timer. -/
theorem debounceSearch_fields (skip : Nat) (text : String) (dT : Nat) (w : SearchSys) :
    (debounceSearch skip text dT w).nextHandle = w.nextHandle + skip + 1 ∧
    (debounceSearch skip text dT w).state.debounceTimeout = w.nextHandle + skip ∧
    (debounceSearch skip text dT w).now = w.now ∧
    (debounceSearch skip text dT w).dispatched = w.dispatched ∧
    (debounceSearch skip text dT w).pending =
      (if dT = 0 then w.pending else w.pending.filter (fun t => t.handle != dT)) ++
        [⟨w.nextHandle + skip, w.now + 500, text⟩] := by
  by_cases h : dT = 0 <;> simp [debounceSearch, setTimeout, clearTimeout, h]

/-- The first keystroke after mounting arms the timer for its text. -/
theorem keystroke_initial_armed (k : Keystroke) :
    Armed (keystroke initialSys k) k.text := by
  refine ⟨?_, ?_, 1 + k.skip, ?_, ?_, ?_⟩ <;>
    simp [keystroke, onChange, debounceSearch, setTimeout, clearTimeout, advance,
      initialSys, initialState]

/-- A keystroke that arrives less than 500 ms after the timer was armed cancels
it and arms the timer for the new text. -/
theorem keystroke_armed (w : SearchSys) (txt : String) (k : Keystroke)
    (hw : Armed w txt) (hk : k.gap < 500) : Armed (keystroke w k) k.text := by
  obtain ⟨hn, hd, h, hh, hs, hp⟩ := hw
  have hdue : ¬ (w.now + 500 ≤ w.now + k.gap) := by omega
  obtain ⟨f1, f2, f3, f4, f5⟩ :=
    debounceSearch_fields k.skip k.text (advance k.gap w).state.debounceTimeout
      (advance k.gap w)
  have a1 : (advance k.gap w).nextHandle = w.nextHandle := rfl
  have a2 : (advance k.gap w).state.debounceTimeout = h := hs
  have a3 : (advance k.gap w).now = w.now + k.gap := rfl
  have a4 : (advance k.gap w).dispatched = [] := by simp [advance, hd, hp, hdue]
  have a5 : (advance k.gap w).pending = [⟨h, w.now + 500, txt⟩] := by
    simp [advance, hp, hdue]
  unfold keystroke onChange
  refine ⟨?_, ?_, w.nextHandle + k.skip, ?_, ?_, ?_⟩
  · rw [f1]; omega
  · rw [f4, a4]
  · omega
  · rw [f2, a1]
  · rw [f5, f3, a1, a2, a3, a5]
    simp [hh]

/-- A burst of keystrokes, each less than 500 ms after the previous one, leaves
the timer armed for the text of the last keystroke. -/
theorem runKeys_armed (rest : List Keystroke) (w : SearchSys) (k0 : Keystroke)
    (hw : Armed w k0.text) (hgap : ∀ k ∈ rest, k.gap < 500) :
    Armed (runKeys w rest) ((k0 :: rest).getLast (List.cons_ne_nil k0 rest)).text := by
  induction rest generalizing w k0 with
  | nil => simpa [runKeys] using hw
  | cons k1 r ih =>
    have h1 : k1.gap < 500 := hgap k1 (List.mem_cons_self k1 r)
    have hr : ∀ k ∈ r, k.gap < 500 := fun k hk => hgap k (List.mem_cons_of_mem k1 hk)
    have := ih (keystroke w k1) k1 (keystroke_armed w k0.text k1 hw h1) hr
    simpa [runKeys, List.getLast_cons_cons] using this

/-- Once 500 ms have passed, an armed timer fires: its text is the one search
dispatched and the table is empty. -/
theorem advance_armed (w : SearchSys) (txt : String) (d : Nat)
    (hw : Armed w txt) (hd : 500 ≤ d) :
    (advance d w).dispatched = [txt] ∧ (advance d w).pending = [] := by
  obtain ⟨_, hdis, h, _, _, hp⟩ := hw
  have hdue : w.now + 500 ≤ w.now + d := by omega
  simp [advance, hdis, hp, hdue]

/-- C9: for every non-empty sequence of keystrokes in which each keystroke
arrives less than 500 ms after the previous one, no search is dispatched during
the burst, and once 500 ms or more have passed after the last keystroke exactly
one search has been dispatched, the one for the text of the last keystroke, and
no timer is left. -/
theorem debounce_burst_dispatches_last (ks : List Keystroke) (hne : ks ≠ [])
    (hgap : ∀ k ∈ ks.tail, k.gap < 500) :
    (runKeys initialSys ks).dispatched = [] ∧
    ∀ d, 500 ≤ d →
      (advance d (runKeys initialSys ks)).dispatched = [(ks.getLast hne).text] ∧
      (advance d (runKeys initialSys ks)).pending = [] := by
  cases ks with
  | nil => exact absurd rfl hne
  | cons k0 rest =>
    have harmed : Armed (runKeys initialSys (k0 :: rest))
        ((k0 :: rest).getLast hne).text :=
      runKeys_armed rest (keystroke initialSys k0) k0 (keystroke_initial_armed k0) hgap
    exact ⟨harmed.2.1, fun d hd => advance_armed _ _ d harmed hd⟩

theorem debounce_burst_dispatches_last_witness :
    (advance 500 (runKeys initialSys
      [⟨0, 0, "a"⟩, ⟨100, 0, "ab"⟩, ⟨100, 0, "abc"⟩])).dispatched = ["abc"] :=
  ((debounce_burst_dispatches_last [⟨0, 0, "a"⟩, ⟨100, 0, "ab"⟩, ⟨100, 0, "abc"⟩]
    (by decide) (by decide)).2 500 (le_refl 500)).1

theorem tracked_initial : Tracked initialSys := by
  refine ⟨?_, Or.inl rfl⟩
  simp [initialSys]

/-- Every step keeps the timer table tracked by the `debounceTimeout` cell. -/
theorem tracked_step (w w1 : SearchSys) (hw : Tracked w) (hs : Step w w1) : Tracked w1 := by
  obtain ⟨hn, hp⟩ := hw
  cases hs with
  | key skip text =>
    obtain ⟨f1, f2, _, _, f5⟩ := debounceSearch_fields skip text w.state.debounceTimeout w
    unfold onChange
    refine ⟨?_, Or.inr ⟨⟨w.nextHandle + skip, w.now + 500, text⟩, ?_, ?_, ?_⟩⟩
    · rw [f1]; omega
    · rw [f5]
      rcases hp with hp | ⟨t, hp, ht, ht0⟩
      · by_cases h0 : w.state.debounceTimeout = 0 <;> simp [hp, h0]
      · have h0 : w.state.debounceTimeout ≠ 0 := ht ▸ ht0
        simp [hp, h0, ht]
    · rw [f2]
    · show w.nextHandle + skip ≠ 0
      omega
  | tick d => exact ⟨hn, hp⟩
  | expire t ht hdue =>
    refine ⟨hn, Or.inl ?_⟩
    rcases hp with hp | ⟨t1, hp, _, _⟩
    · simp [fire, hp]
    · rw [hp, List.mem_singleton] at ht
      simp [fire, hp, ht]

theorem tracked_of_reachable (w : SearchSys) (h : Reachable w) : Tracked w := by
  induction h with
  | init => exact tracked_initial
  | step w w1 _ hs ih => exact tracked_step w w1 ih hs

/-- C10: in every state reachable from the freshly mounted component by
keystrokes, passing time and timer expiries, at most one search timer scheduled
by `debounceSearch` is pending. -/
theorem at_most_one_pending_timer (w : SearchSys) (h : Reachable w) :
    w.pending.length ≤ 1 := by
  rcases (tracked_of_reachable w h).2 with hp | ⟨t, hp, _, _⟩ <;> simp [hp]

theorem at_most_one_pending_timer_witness :
    (onChange 3 "ab" (onChange 0 "a" initialSys)).pending.length ≤ 1 :=
  at_most_one_pending_timer _
    (Reachable.step _ _ (Reachable.step _ _ Reachable.init (Step.key _ 0 "a"))
      (Step.key _ 3 "ab"))

/-! ## Cart line items -/

/-- In a catalog with unique ids, looking a product's id up finds that product. -/
theorem find?_id_of_mem (C : List Product) (hC : (C.map Product._id).Nodup)
    (p : Product) (hp : p ∈ C) (pid : String) (hid : p._id = pid) :
    C.find? (fun x => x._id == pid) = some p := by
  induction C with
  | nil => cases hp
  | cons c C ih =>
    rw [List.map_cons, List.nodup_cons] at hC
    rw [List.find?_cons]
    rcases List.mem_cons.mp hp with rfl | hpC
    · simp [hid]
    · have hne : c._id ≠ pid := by
        intro hc
        apply hC.1
        rw [hc, ← hid]
        exact List.mem_map_of_mem Product._id hpC
      have hb : (c._id == pid) = false := by simpa using hne
      rw [hb]
      exact ih hC.2 hpC

/-- The line items, read back as cart entries, are the entries that have a
product in the catalog, in snapshot order. -/
theorem generateCartItemsFrom_entries (S : List CartEntry) (C : List Product) :
    (generateCartItemsFrom S C).map
        (fun li => ({ productId := li.product._id, qty := li.quantity } : CartEntry)) =
      S.filter (fun e => C.any (fun p => p._id == e.productId)) := by
  induction S with
  | nil => rfl
  | cons e S ih =>
    unfold generateCartItemsFrom at ih ⊢
    rw [List.filterMap_cons, List.filter_cons]
    cases hf : C.find? (fun p => p._id == e.productId) with
    | none =>
      have hany : C.any (fun p => p._id == e.productId) = false := by
        rw [List.find?_eq_none] at hf
        rw [Bool.eq_false_iff]
        intro h
        obtain ⟨x, hx, hxe⟩ := List.any_eq_true.mp h
        exact hf x hx hxe
      simp only [Option.map_none', hany, Bool.false_eq_true, if_false]
      exact ih
    | some p =>
      have hpid : p._id = e.productId := by
        have := List.find?_some hf
        simpa using this
      have hany : C.any (fun p => p._id == e.productId) = true :=
        List.any_eq_true.mpr ⟨p, List.mem_of_find?_eq_some hf, by simp [hpid]⟩
      simp only [Option.map_some', hany, if_true, List.map_cons, hpid]
      rw [ih]

/-- C11: for a catalog with unique product ids, the line items of
`generateCartItemsFrom` are exactly the pairs of a cart entry and the catalog
product with the entry's product id, with the entry's quantity; there is one
line item per such entry, and entries without a product are left out. -/
theorem generateCartItemsFrom_exact (C : List Product) (S : List CartEntry)
    (hC : (C.map Product._id).Nodup) :
    (∀ li : CartLineItem, li ∈ generateCartItemsFrom S C ↔
        ∃ e ∈ S, ∃ p ∈ C, p._id = e.productId ∧ li = { product := p, quantity := e.qty }) ∧
    (generateCartItemsFrom S C).map
        (fun li => ({ productId := li.product._id, qty := li.quantity } : CartEntry)) =
      S.filter (fun e => C.any (fun p => p._id == e.productId)) := by
  refine ⟨?_, generateCartItemsFrom_entries S C⟩
  intro li
  unfold generateCartItemsFrom
  rw [List.mem_filterMap]
  constructor
  · rintro ⟨e, he, hli⟩
    cases hf : C.find? (fun p => p._id == e.productId) with
    | none => simp [hf] at hli
    | some p =>
      have hpid : p._id = e.productId := by
        have := List.find?_some hf
        simpa using this
      refine ⟨e, he, p, List.mem_of_find?_eq_some hf, hpid, ?_⟩
      simp [hf] at hli
      exact hli.symm
  · rintro ⟨e, he, p, hp, hpid, rfl⟩
    exact ⟨e, he, by rw [find?_id_of_mem C hC p hp e.productId hpid]; rfl⟩

theorem generateCartItemsFrom_exact_witness :
    (generateCartItemsFrom [⟨"b", 2⟩, ⟨"x", 5⟩, ⟨"a", 1⟩]
        [⟨"Ball", "Sports", 100, 5, "u1", "a"⟩, ⟨"Phone", "Phones", 900, 4, "u2", "b"⟩]).map
        (fun li => ({ productId := li.product._id, qty := li.quantity } : CartEntry)) =
      [⟨"b", 2⟩, ⟨"a", 1⟩] :=
  (generateCartItemsFrom_exact
    [⟨"Ball", "Sports", 100, 5, "u1", "a"⟩, ⟨"Phone", "Phones", 900, 4, "u2", "b"⟩]
    [⟨"b", 2⟩, ⟨"x", 5⟩, ⟨"a", 1⟩] (by decide)).2.trans (by decide)

/-! ## Catalog requests -/

/-- C12, the code at failing requests: when the search or the catalog request
fails without a response, the `catch` block itself throws and the exception
leaves `performSearch` and `performAPICall`; when the server answers 500, both
return with the state as it was and without any `enqueueSnackbar` call, so the
page shows what it showed before. -/
theorem catalog_failure_raises_or_is_silent :
    performSearch (fun _ => .error .noResponse) "a" initialState = .error .typeError ∧
    performAPICall (.error .noResponse) initialState = .error .typeError ∧
    performSearch (fun _ => .error (.response 500 "Something went wrong")) "a" initialState =
      .ok { state := initialState, notices := [], posts := [], console := [] } ∧
    performAPICall (.error (.response 500 "Something went wrong")) initialState =
      .ok { state := initialState, notices := [], posts := [], console := [] } :=
  ⟨rfl, rfl, rfl, rfl⟩

/-- C13: when the search request is answered with HTTP 404, `performSearch`
returns normally, sets `isProductAvailable` to false and keeps the product
list, the cart and the other state cells, and the page then renders the "No
products found" box, neither the spinner nor the grid. -/
theorem performSearch_not_found (search : String → ProductsReply) (text : String)
    (s : ProductsState) (message : String)
    (h : search text = .error (.response 404 message)) :
    ∃ r : Run, performSearch search text s = .ok r ∧
      r.state =
        { productDetails := s.productDetails
          isLoaded := s.isLoaded
          isProductAvailable := false
          debounceTimeout := s.debounceTimeout
          cartDetails := s.cartDetails } ∧
      render r.state = .noProductsFound := by
  refine ⟨stateOnly { s with isProductAvailable := false }, ?_, rfl, ?_⟩
  · simp [performSearch, performSearchSettled, h]
  · simp [render, stateOnly]

theorem performSearch_not_found_witness :
    ∃ r : Run,
      performSearch (fun _ => .error (.response 404 "No products found")) "zzz"
          { initialState with isLoaded := true } = .ok r ∧
      r.state =
        { productDetails := []
          isLoaded := true
          isProductAvailable := false
          debounceTimeout := 500
          cartDetails := [] } ∧
      render r.state = .noProductsFound :=
  performSearch_not_found (fun _ => .error (.response 404 "No products found")) "zzz"
    { initialState with isLoaded := true } "No products found" rfl

/-! ## Logout and the catalog button -/

/-- C14: whatever the credential store holds, after Logout it has neither
`username` nor `token`, and a click on a catalog "add to cart" button then
takes the branch without token: the login warning, no request, state kept. -/
theorem logout_clears_credentials (fmt : Int → String) (store : LocalStorage)
    (post : CartPost → CartReply) (s : ProductsState) (item : Product) :
    getItem (logout store) "username" = none ∧
    getItem (logout store) "token" = none ∧
    (handleAddToCart fmt post (logout store) s item).state = s ∧
    (handleAddToCart fmt post (logout store) s item).notices = [loginWarning] ∧
    (handleAddToCart fmt post (logout store) s item).posts = [] := by
  refine ⟨rfl, rfl, ?_, ?_, ?_⟩ <;>
    simp [handleAddToCart, logout, clear, getItem, addToCart, tokenFalsy]

/-- C15: two calls of `addToCart` that agree on whether a token is present, on
the quantity, on the truthiness of `options` and on the catalog flag show the
same notices and request the same quantities, whatever the cart service, the
component state, `items`, `products`, the product id and the token text are. -/
theorem addToCart_same_decision (post1 post2 : CartPost → CartReply)
    (s1 s2 : ProductsState) (token1 token2 : Option String)
    (items1 items2 : List CartEntry) (products1 products2 : List Product)
    (productId1 productId2 : String) (qty : Int) (options1 options2 : OptionsArg)
    (isTriggeredFromProduct : Bool)
    (htoken : tokenFalsy token1 = tokenFalsy token2)
    (hoptions : options1.truthy = options2.truthy) :
    (addToCart post1 s1 token1 items1 products1 productId1 qty options1
        isTriggeredFromProduct).notices =
      (addToCart post2 s2 token2 items2 products2 productId2 qty options2
        isTriggeredFromProduct).notices ∧
    (addToCart post1 s1 token1 items1 products1 productId1 qty options1
        isTriggeredFromProduct).posts.map CartPost.qty =
      (addToCart post2 s2 token2 items2 products2 productId2 qty options2
        isTriggeredFromProduct).posts.map CartPost.qty := by
  rw [(addToCart_decision post1 s1 token1 items1 products1 productId1 qty options1
      isTriggeredFromProduct).1,
    (addToCart_decision post1 s1 token1 items1 products1 productId1 qty options1
      isTriggeredFromProduct).2,
    (addToCart_decision post2 s2 token2 items2 products2 productId2 qty options2
      isTriggeredFromProduct).1,
    (addToCart_decision post2 s2 token2 items2 products2 productId2 qty options2
      isTriggeredFromProduct).2, htoken, hoptions]
  refine ⟨rfl, ?_⟩
  by_cases h1 : tokenFalsy token2 = true
  · simp [h1]
  · by_cases h2 : (decide (qty > 0) && isTriggeredFromProduct) = true
    · simp [h1, h2]
    · simp [h1, h2]

theorem addToCart_same_decision_witness :
    (addToCart (fun _ => .ok []) initialState (some "tok") [] [] "p" 3 (.bool false)
        false).notices =
      (addToCart (fun _ => .error .noResponse)
        { initialState with cartDetails := [⟨"q", 3⟩] } (some "other") [⟨"q", 3⟩] [] "q" 3
        (.bool false) false).notices ∧
    (addToCart (fun _ => .ok []) initialState (some "tok") [] [] "p" 3 (.bool false)
        false).posts.map CartPost.qty =
      (addToCart (fun _ => .error .noResponse)
        { initialState with cartDetails := [⟨"q", 3⟩] } (some "other") [⟨"q", 3⟩] [] "q" 3
        (.bool false) false).posts.map CartPost.qty :=
  addToCart_same_decision (fun _ => .ok []) (fun _ => .error .noResponse) initialState
    { initialState with cartDetails := [⟨"q", 3⟩] } (some "tok") (some "other") []
    [⟨"q", 3⟩] [] [] "p" "q" 3 (.bool false) (.bool false) false rfl rfl

/-! ## In-flight searches -/

/-- C16: there is an order of events in which the search for `t1` is sent, then
the search for `t2`, the reply to `t2` arrives and the reply to `t1` arrives
last; every event is handled, and the product list at the end is the result of
the earlier query `t1`, not that of the latest query `t2`. -/
theorem stale_search_reply_wins (search : String → ProductsReply) (s : ProductsState)
    (t1 t2 : String) (P1 P2 : List Product)
    (h1 : search t1 = .ok P1) (h2 : search t2 = .ok P2) (hne : P1 ≠ P2) :
    ∃ n : SearchNet,
      searchEvents search { state := s, inflight := [] }
          [.timerFires t1, .timerFires t2, .replyArrives t2, .replyArrives t1] = some n ∧
      n.inflight = [] ∧ n.state.productDetails = P1 ∧ n.state.productDetails ≠ P2 := by
  refine ⟨{ state := { s with productDetails := P1, isProductAvailable := true },
            inflight := [] }, ?_, rfl, rfl, hne⟩
  by_cases h : t1 = t2
  · subst h
    have : P1 = P2 := by
      rw [h1] at h2
      exact Except.ok.inj h2
    exact absurd this hne
  · have h' : ¬ t2 = t1 := fun e => h e.symm
    simp [searchEvents, searchEvent, performSearchSettled, stateOnly, h1, h2, h, h',
      List.erase_cons]

theorem stale_search_reply_wins_witness :
    ∃ n : SearchNet,
      searchEvents
          (fun t => if t = "a" then .ok [⟨"Apple", "Fruit", 3, 4, "u1", "p1"⟩] else .ok [])
          { state := initialState, inflight := [] }
          [.timerFires "a", .timerFires "ab", .replyArrives "ab", .replyArrives "a"] =
        some n ∧
      n.inflight = [] ∧
      n.state.productDetails = [⟨"Apple", "Fruit", 3, 4, "u1", "p1"⟩] ∧
      n.state.productDetails ≠ [] :=
  stale_search_reply_wins
    (fun t => if t = "a" then .ok [⟨"Apple", "Fruit", 3, 4, "u1", "p1"⟩] else .ok [])
    initialState "a" "ab" [⟨"Apple", "Fruit", 3, 4, "u1", "p1"⟩] [] rfl rfl (by decide)

/-! ## The catalog button -/

/-- With no negative quantity in the cart, `quantityInCart` is not negative. -/
theorem quantityInCart_nonneg (S : List CartEntry) (p : String)
    (hS : ∀ e ∈ S, 0 ≤ e.qty) : 0 ≤ quantityInCart S p := by
  unfold quantityInCart
  have key : ∀ (l : List CartEntry) (acc : Int), (∀ e ∈ l, 0 ≤ e.qty) → 0 ≤ acc →
      0 ≤ l.foldl (quantityStep p) acc := by
    intro l
    induction l with
    | nil => intro acc _ hacc; exact hacc
    | cons x l ih =>
      intro acc hl hacc
      rw [List.foldl_cons]
      apply ih
      · exact fun e he => hl e (List.mem_cons_of_mem x he)
      · unfold quantityStep
        split
        · exact hl x (List.mem_cons_self x l)
        · exact hacc
  exact key S 0 hS (le_refl 0)

/-- C17: with a token in the store and no negative quantity in the cart, a
click on the catalog button of `item` sends exactly one request, for quantity
1, and shows nothing when `quantityInCart` is 0; it sends nothing and shows the
one "already in cart" warning when `quantityInCart` is above 0; so every
request the button sends asks for quantity 1. -/
theorem catalog_click (fmt : Int → String) (post : CartPost → CartReply)
    (store : LocalStorage) (s : ProductsState) (item : Product) (t : String)
    (hs : ∀ e ∈ s.cartDetails, 0 ≤ e.qty)
    (htoken : getItem store "token" = some t) (ht : t ≠ "") :
    (quantityInCart s.cartDetails item._id = 0 →
      (handleAddToCart fmt post store s item).notices = [] ∧
      (handleAddToCart fmt post store s item).posts = [⟨item._id, 1, "Bearer " ++ t⟩]) ∧
    (0 < quantityInCart s.cartDetails item._id →
      (handleAddToCart fmt post store s item).notices = [alreadyInCartWarning] ∧
      (handleAddToCart fmt post store s item).posts = []) ∧
    (∀ r ∈ (handleAddToCart fmt post store s item).posts, r.qty = 1) := by
  have hq := quantityInCart_nonneg s.cartDetails item._id hs
  obtain ⟨hn, hp⟩ := addToCart_decision post s (some t) s.cartDetails s.productDetails
    item._id (quantityInCart s.cartDetails item._id) (.bool true) true
  have hfalsy := tokenFalsy_some t ht
  have hone : toDouble 1 = 1 := by decide
  unfold handleAddToCart
  simp only []
  rw [htoken, hn, hp, hfalsy]
  refine ⟨?_, ?_, ?_⟩
  · intro h0
    simp [h0, OptionsArg.truthy, bearer, hone]
  · intro hpos
    simp [hpos]
  · intro r hr
    by_cases hpos : 0 < quantityInCart s.cartDetails item._id
    · simp [hpos] at hr
    · have h0 : quantityInCart s.cartDetails item._id = 0 := by omega
      simp [h0, OptionsArg.truthy, hone] at hr
      rw [hr]

theorem catalog_click_witness :
    (handleAddToCart (fun _ => "2") (fun _ => .ok []) [("username", "u"), ("token", "tok")]
        { initialState with cartDetails := [⟨"q", 2⟩] }
        ⟨"Ball", "Sports", 100, 5, "u1", "p"⟩).posts = [⟨"p", 1, "Bearer tok"⟩] :=
  ((catalog_click (fun _ => "2") (fun _ => .ok []) [("username", "u"), ("token", "tok")]
      { initialState with cartDetails := [⟨"q", 2⟩] }
      ⟨"Ball", "Sports", 100, 5, "u1", "p"⟩ "tok" (by decide) (by decide) (by decide)).1
    (by decide)).2

/-! ## Quantities requested -/

/-- C18 as stated fails: with a token, quantity 0 and `options` false the
request is sent and asks for quantity -1. -/
theorem addToCart_negative_qty_counterexample :
    (addToCart (fun _ => .ok []) initialState (some "tok") [] [] "p" 0 (.bool false)
        false).posts = [⟨"p", -1, "Bearer tok"⟩] ∧
    ¬ ∀ r ∈ (addToCart (fun _ => .ok []) initialState (some "tok") [] [] "p" 0
        (.bool false) false).posts, 0 ≤ r.qty := by
  decide

/-- C18, amended: with a token and a current quantity of at least 0, every
request `addToCart` sends asks for a quantity of at least -1, and of at least 0
when the current quantity is at least 1 or `options` is truthy (increment). -/
theorem addToCart_requested_qty_bound (post : CartPost → CartReply) (s : ProductsState)
    (t : String) (items : List CartEntry) (products : List Product)
    (productId : String) (qty : Int) (options : OptionsArg) (isTriggeredFromProduct : Bool)
    (ht : t ≠ "") (hq : 0 ≤ qty) :
    ∀ r ∈ (addToCart post s (some t) items products productId qty options
        isTriggeredFromProduct).posts,
      -1 ≤ r.qty ∧ ((1 ≤ qty ∨ options.truthy = true) → 0 ≤ r.qty) := by
  intro r hr
  rw [(addToCart_decision post s (some t) items products productId qty options
    isTriggeredFromProduct).2, tokenFalsy_some t ht] at hr
  by_cases h2 : (decide (qty > 0) && isTriggeredFromProduct) = true
  · simp [h2] at hr
  · simp only [h2, Bool.false_eq_true, if_false, List.mem_singleton] at hr
    rw [hr]
    have hup : 0 ≤ toDouble (qty + 1) := toDouble_nonneg _ (by omega)
    have hdown : 1 ≤ qty → 0 ≤ toDouble (qty - 1) := fun h1 => toDouble_nonneg _ (by omega)
    have hzero : qty = 0 → toDouble (qty - 1) = -1 := by
      intro h0
      rw [h0]
      decide
    cases hopt : options.truthy
    · simp only [Bool.false_eq_true, if_false, or_false]
      constructor
      · by_cases h0 : qty = 0
        · rw [hzero h0]
        · have := hdown (by omega)
          omega
      · intro h; exact hdown h
    · simp only [if_true]
      constructor
      · omega
      · intro _; exact hup

theorem addToCart_requested_qty_bound_witness :
    (addToCart (fun _ => .ok []) initialState (some "tok") [] [] "p" 1 (.bool false)
        false).posts = [⟨"p", 0, "Bearer tok"⟩] ∧
    (0 : Int) ≤ (CartPost.mk "p" 0 "Bearer tok").qty :=
  ⟨by decide,
   ((addToCart_requested_qty_bound (fun _ => .ok []) initialState "tok" [] [] "p" 1
      (.bool false) false (by decide) (by decide)) (CartPost.mk "p" 0 "Bearer tok")
      (by decide)).2 (Or.inl (by decide))⟩

/-! ## First keystroke and `fetchCart` -/

/-- C19, the code at the first keystroke: the `debounceTimeout` cell starts at
500, which is truthy, so the first keystroke calls `clearTimeout(500)` before it
schedules its timer. -/
theorem first_keystroke_calls_clearTimeout :
    initialSys.state.debounceTimeout = 500 ∧
    (onChange 0 "a" initialSys).cleared = [500] ∧
    (onChange 0 "a" initialSys).pending = [⟨1, 500, "a"⟩] := by
  decide

/-- C20, the code at a successful cart request: `fetchCart` stores the reply in
the cart state and returns `undefined`, not the array; at a failed request it
returns `null`. -/
theorem fetchCart_returns_undefined_on_success :
    fetchCart (fun _ => .ok [⟨"p", 1⟩]) initialState (some "tok") =
      ({ state := { initialState with cartDetails := [⟨"p", 1⟩] }
         notices := [], posts := [], console := [] }, .undefined) ∧
    (fetchCart (fun _ => .error .noResponse) initialState (some "tok")).2 = .null := by
  decide

/-! ## Failed cart fetch -/

/-- C21: with a token, when `GET /cart` fails with any status or without a
response, `fetchCart` returns (with `null`), keeps the whole component state,
the cart included, and makes exactly one `enqueueSnackbar` call, of variant
error: with the backend's message when the status is 400, with the fixed "Could
not fetch cart details" text in every other case. -/
theorem fetchCart_failure (get : String → CartReply) (s : ProductsState) (t : String)
    (e : HttpFailure) (ht : t ≠ "") (hfail : get ("Bearer " ++ t) = .error e) :
    (fetchCart get s (some t)).2 = .null ∧
    (fetchCart get s (some t)).1.state = s ∧
    (fetchCart get s (some t)).1.notices.length = 1 ∧
    (∀ n ∈ (fetchCart get s (some t)).1.notices, n.variant = .error) ∧
    (∀ message, e = .response 400 message →
      (fetchCart get s (some t)).1.notices = [⟨message, .error⟩]) ∧
    ((∀ message, e ≠ .response 400 message) →
      (fetchCart get s (some t)).1.notices = [fetchCartFallback]) := by
  have hb : get (bearer (some t)) = .error e := hfail
  unfold fetchCart
  rw [tokenFalsy_some t ht]
  simp only [Bool.false_eq_true, if_false, hb]
  cases e with
  | noResponse => simp [fetchCartFallback]
  | response status message =>
    by_cases h400 : status = 400
    · subst h400
      simp
    · simp [h400, fetchCartFallback]

theorem fetchCart_failure_witness :
    (fetchCart (fun _ => .error (.response 401 "Protected route, Oauth2 Bearer token not found"))
        { initialState with cartDetails := [⟨"p", 1⟩] } (some "tok")).1.state =
      { initialState with cartDetails := [⟨"p", 1⟩] } :=
  (fetchCart_failure
    (fun _ => .error (.response 401 "Protected route, Oauth2 Bearer token not found"))
    { initialState with cartDetails := [⟨"p", 1⟩] } "tok"
    (.response 401 "Protected route, Oauth2 Bearer token not found") (by decide) rfl).2.1

/-! ## `isItemInCart` -/

/-- C22, the code at a cart that holds the product: `isItemInCart` yields
`undefined`, neither the Boolean true nor the Boolean false; it does so for
every cart and every product id. -/
theorem isItemInCart_returns_undefined :
    isItemInCart [⟨"p", 1⟩] "p" = .undefined ∧
    isItemInCart [⟨"p", 1⟩] "p" ≠ .boolean true ∧
    ∀ (items : List CartEntry) (productId : String) (b : Bool),
      isItemInCart items productId ≠ .boolean b := by
  refine ⟨rfl, by decide, ?_⟩
  intro items productId b h
  cases h

/-! ## The view after a search -/

/-- C23 as stated fails: in the state the component is in after the initial
catalog request failed with HTTP 500 (the initial state, `isLoaded` false), a
search that succeeds with one product leaves the page on the "Loading Products"
spinner, not on the grid. -/
theorem performSearch_success_view_counterexample :
    performAPICall (.error (.response 500 "Something went wrong")) initialState =
      .ok (stateOnly initialState) ∧
    ∃ r : Run,
      performSearch (fun _ => .ok [⟨"Ball", "Sports", 100, 5, "u1", "p"⟩]) "ball"
          initialState = .ok r ∧
      render r.state = .loading ∧
      render r.state ≠ .grid [⟨"Ball", "Sports", 100, 5, "u1", "p"⟩] :=
  ⟨rfl, stateOnly { initialState with
      productDetails := [⟨"Ball", "Sports", 100, 5, "u1", "p"⟩], isProductAvailable := true },
    rfl, by decide, by decide⟩

/-- C23, amended: for every component state, whatever `isProductAvailable` is,
after `performSearch` succeeds with product list `P` the state holds `P`, and
the page renders the grid of exactly `P` when `isLoaded` is true; when
`isLoaded` is false it renders the spinner. It never renders "No products
found". -/
theorem performSearch_success_view (search : String → ProductsReply) (text : String)
    (s : ProductsState) (P : List Product) (h : search text = .ok P) :
    ∃ r : Run, performSearch search text s = .ok r ∧
      r.state.productDetails = P ∧
      (s.isLoaded = true → render r.state = .grid P) ∧
      (s.isLoaded = false → render r.state = .loading) ∧
      render r.state ≠ .noProductsFound := by
  refine ⟨stateOnly { s with productDetails := P, isProductAvailable := true }, ?_, rfl,
    ?_, ?_, ?_⟩
  · simp [performSearch, performSearchSettled, h]
  · intro hl
    simp [render, stateOnly, hl]
  · intro hl
    simp [render, stateOnly, hl]
  · cases hl : s.isLoaded <;> simp [render, stateOnly, hl]

theorem performSearch_success_view_witness :
    ∃ r : Run,
      performSearch (fun _ => .ok [⟨"Ball", "Sports", 100, 5, "u1", "p"⟩]) "ball"
          { initialState with isLoaded := true, isProductAvailable := false } = .ok r ∧
      r.state.productDetails = [⟨"Ball", "Sports", 100, 5, "u1", "p"⟩] ∧
      render r.state = .grid [⟨"Ball", "Sports", 100, 5, "u1", "p"⟩] := by
  obtain ⟨r, h1, h2, h3, _, _⟩ :=
    performSearch_success_view (fun _ => .ok [⟨"Ball", "Sports", 100, 5, "u1", "p"⟩]) "ball"
      { initialState with isLoaded := true, isProductAvailable := false }
      [⟨"Ball", "Sports", 100, 5, "u1", "p"⟩] rfl
  exact ⟨r, h1, h2, h3 rfl⟩

end Qkart
